import Mathlib

/-!
# Shallow embedding of the sanpaholmes order and product API

This file models the HTTP handlers of the compras router (POST /api/compras,
PUT /:id/productos, PATCH /:id/estado, DELETE /:id, PUT /:id) and of the
productos router (GET /, GET /:id, PUT /:id, DELETE /:id) as pure functions
over an explicit database state.  Each handler returns an `Except`
value (the HTTP response) together with the post-state; every error path
returns the state unchanged, mirroring the transaction ROLLBACK / early
return before mutation in the source.

Modelling conventions:
* SQL tables are lists of rows; a serial primary key is `nextCompraId`.
* `DECIMAL` prices, money amounts and `INTEGER` quantities are `Int`
  (the JS code does ordinary arithmetic on them; no overflow is relevant).
* A multipart form field that may be absent is `Option`; the JavaScript
  falsiness test `!x` on a string field is `jsFalsyStr` (absent or empty).
* `comprador_mesa` arrives as a form string run through `parseInt`; the
  model carries the parsed value as `Option Int` (`none` = absent/empty
  string).  The source guard `if (mesaNormalizada && ...)` tests JS number
  truthiness, so the value 0 skips the range check; the model keeps that
  behaviour (`mesaFueraDeRango`).
* The receipt file is modelled by its base64 data-URI string.
-/

namespace Sanpaholmes

/-- A row of the `productos` table. -/
structure Producto where
  id : Nat
  nombre : String
  categoria : String
  subcategoria : Option String
  precio : Int
  stock : Int
  descripcion : Option String
  imagen_url : Option String
  activo : Bool
deriving DecidableEq

/-- A row of the `compras` table. -/
structure Compra where
  id : Nat
  comprador_nombre : String
  comprador_telefono : Option String
  comprador_mesa : Option Int
  metodo_pago : String
  comprobante_archivo : Option String
  total : Int
  detalles_pedido : Option String
  abonado : Bool
  listo : Bool
  entregado : Bool
deriving DecidableEq

/-- A row of the `detalle_compra` table. -/
structure DetalleCompra where
  compra_id : Nat
  producto_id : Nat
  cantidad : Int
  precio_unitario : Int
  subtotal : Int
deriving DecidableEq

/-- The database state. -/
structure State where
  productos : List Producto
  compras : List Compra
  detalles : List DetalleCompra
  nextCompraId : Nat
deriving DecidableEq

deriving instance DecidableEq for Except

/-- One `{producto_id, cantidad}` entry of the parsed `productos` JSON in a
POST /api/compras body. -/
structure ItemReq where
  producto_id : Nat
  cantidad : Int
deriving DecidableEq

/-- The POST /api/compras request after multer: form fields plus the optional
uploaded receipt (already base64 data-URI encoded).  `productos = none`
models a body whose `productos` field does not parse to an array. -/
structure CompraReq where
  comprador_nombre : Option String
  comprador_telefono : Option String
  comprador_mesa : Option Int
  metodo_pago : Option String
  comprobante : Option String
  productos : Option (List ItemReq)
  detalles_pedido : Option String
deriving DecidableEq

/-- JS falsiness of a string form field: absent (`undefined`) or empty. -/
def jsFalsyStr : Option String → Bool
  | none => true
  | some s => s.isEmpty

/-- `x || null` on a string field: empty string collapses to null. -/
def jsStrOrNull : Option String → Option String
  | none => none
  | some s => if s.isEmpty then none else some s

/-- The guard `if (mesa && (mesa < lo || mesa > hi))` of the source: a JS
number is truthy iff non-zero, so `some 0` never fails the range check. -/
def mesaFueraDeRango (m : Option Int) (lo hi : Int) : Bool :=
  match m with
  | none => false
  | some v => v != 0 && (v < lo || v > hi)

/-- `SELECT ... FROM productos WHERE id = $1` (first matching row). -/
def findProducto (ps : List Producto) (pid : Nat) : Option Producto :=
  ps.find? fun p => p.id == pid

/-- `SELECT ... FROM productos WHERE id = $1 AND activo = true`. -/
def findProductoActivo (ps : List Producto) (pid : Nat) : Option Producto :=
  ps.find? fun p => p.id == pid && p.activo

/-- `SELECT ... FROM compras WHERE id = $1` (first matching row). -/
def findCompra (cs : List Compra) (id : Nat) : Option Compra :=
  cs.find? fun c => c.id == id

/-- `producto.rows[0].precio` after a lookup by id (0 when no row; the
callers only read it after validation has guaranteed the row exists). -/
def precioDe (ps : List Producto) (pid : Nat) : Int :=
  match findProducto ps pid with
  | some p => p.precio
  | none => 0

/-- The error kinds of POST /api/compras, in source order. -/
inductive CompraError where
  | missingFields
  | mesaRange
  | invalidPayment
  | missingReceipt
  | invalidProductos
  | emptyProductos
  | productNotFound (producto_id : Nat)
  | insufficientStock (producto_id : Nat)
  | fileTooLarge
deriving DecidableEq

/-- HTTP status the handler sends for each error kind. -/
def CompraError.status : CompraError → Nat
  | .productNotFound _ => 404
  | _ => 400

/-- The stock-validation loop of POST /api/compras (step 1 in the source):
for each item look the product up by id with `activo = true`; a missing row
aborts with 404, `stock < cantidad` aborts with the insufficient-stock 400.
Fail-fast: the first failing item decides the response. -/
def validarStock (ps : List Producto) : List ItemReq → Option CompraError
  | [] => none
  | it :: rest =>
    match findProductoActivo ps it.producto_id with
    | none => some (.productNotFound it.producto_id)
    | some p =>
      if p.stock < it.cantidad then some (.insufficientStock it.producto_id)
      else validarStock ps rest

/-- Step 2 of the source: `total += producto.precio * item.cantidad` over
the items, reading each price fresh by id (without the activo filter). -/
def calcTotal (ps : List Producto) (items : List ItemReq) : Int :=
  items.foldl (fun acc it => acc + precioDe ps it.producto_id * it.cantidad) 0

/-- The base64 data-URI size guard: reject when the encoded receipt exceeds
10 MiB. -/
def comprobanteDemasiadoGrande : Option String → Bool
  | none => false
  | some c => 10 * 1024 * 1024 < c.length

/-- `UPDATE productos SET stock = stock - $1 WHERE id = $2`. -/
def decStock (ps : List Producto) (pid : Nat) (q : Int) : List Producto :=
  ps.map fun p => if p.id == pid then { p with stock := p.stock - q } else p

/-- The `compras` row inserted by POST /api/compras. -/
def mkCompraRow (s : State) (r : CompraReq) (items : List ItemReq) : Compra :=
  { id := s.nextCompraId
  , comprador_nombre := r.comprador_nombre.getD ""
  , comprador_telefono := jsStrOrNull r.comprador_telefono
  , comprador_mesa := r.comprador_mesa
  , metodo_pago := r.metodo_pago.getD ""
  , comprobante_archivo := r.comprobante
  , total := calcTotal s.productos items
  , detalles_pedido := jsStrOrNull r.detalles_pedido
  , abonado := false
  , listo := false
  , entregado := false }

/-- Step 4 of the source: for each item re-read the current price, insert a
`detalle_compra` row with that unit price and `subtotal = precio * cantidad`,
and decrement the product's stock, sequentially. -/
def commitItems (s : State) (cid : Nat) : List ItemReq → State
  | [] => s
  | it :: rest =>
    let precio := precioDe s.productos it.producto_id
    let d : DetalleCompra :=
      { compra_id := cid
      , producto_id := it.producto_id
      , cantidad := it.cantidad
      , precio_unitario := precio
      , subtotal := precio * it.cantidad }
    commitItems
      { s with
        detalles := s.detalles ++ [d]
        productos := decStock s.productos it.producto_id it.cantidad }
      cid rest

/-- POST /api/compras.  The checks appear in source order; every failure
returns the state unchanged (early return before BEGIN, or ROLLBACK). -/
def crearCompra (s : State) (r : CompraReq) : Except CompraError Compra × State :=
  if jsFalsyStr r.comprador_nombre || jsFalsyStr r.metodo_pago then
    (.error .missingFields, s)
  else if mesaFueraDeRango r.comprador_mesa 1 50 then
    (.error .mesaRange, s)
  else if !(r.metodo_pago == some "efectivo" || r.metodo_pago == some "transferencia") then
    (.error .invalidPayment, s)
  else if r.metodo_pago == some "transferencia" && r.comprobante.isNone then
    (.error .missingReceipt, s)
  else
    match r.productos with
    | none => (.error .invalidProductos, s)
    | some items =>
      if items.isEmpty then (.error .emptyProductos, s)
      else
        match validarStock s.productos items with
        | some e => (.error e, s)
        | none =>
          if comprobanteDemasiadoGrande r.comprobante then (.error .fileTooLarge, s)
          else
            let compra := mkCompraRow s r items
            let s1 : State :=
              { s with
                compras := s.compras ++ [compra]
                nextCompraId := s.nextCompraId + 1 }
            (.ok compra, commitItems s1 compra.id items)

/-- One entry of the `productos` array of PUT /api/compras/:id/productos:
the caller supplies quantity, unit price and subtotal already computed. -/
structure DetalleReq where
  producto_id : Nat
  cantidad : Int
  precio_unitario : Int
  subtotal : Int
deriving DecidableEq

/-- Error kinds of PUT /api/compras/:id/productos.  A missing product inside
the loop throws, which the handler answers with 500 after ROLLBACK. -/
inductive ReplaceError where
  | compraNotFound
  | sinProductos
  | productoNotFound (producto_id : Nat)
deriving DecidableEq

/-- HTTP status for each `ReplaceError`. -/
def ReplaceError.status : ReplaceError → Nat
  | .compraNotFound => 404
  | .sinProductos => 400
  | .productoNotFound _ => 500

/-- The insert loop of PUT /api/compras/:id/productos: check each product id
exists (any row, active or not), insert the caller-supplied detalle row
verbatim, and accumulate `nuevoTotal += subtotal`. -/
def insertarDetalles (s : State) (cid : Nat) :
    List DetalleReq → Int → Except ReplaceError (State × Int)
  | [], acc => .ok (s, acc)
  | prod :: rest, acc =>
    match findProducto s.productos prod.producto_id with
    | none => .error (.productoNotFound prod.producto_id)
    | some _ =>
      insertarDetalles
        { s with
          detalles := s.detalles ++
            [{ compra_id := cid
             , producto_id := prod.producto_id
             , cantidad := prod.cantidad
             , precio_unitario := prod.precio_unitario
             , subtotal := prod.subtotal }] }
        cid rest (acc + prod.subtotal)

/-- PUT /api/compras/:id/productos: after checking that the order exists
and that the list is non-empty, delete every existing detalle of the order,
insert the replacement rows, and set the order's total to the sum of the
supplied subtotals — all in one transaction (a throw rolls everything
back, so errors leave the original state). -/
def actualizarProductosDeCompra (s : State) (id : Nat)
    (productos : Option (List DetalleReq)) : Except ReplaceError Int × State :=
  match findCompra s.compras id with
  | none => (.error .compraNotFound, s)
  | some _ =>
    match productos with
    | none => (.error .sinProductos, s)
    | some prods =>
      if prods.isEmpty then (.error .sinProductos, s)
      else
        let s1 : State :=
          { s with detalles := s.detalles.filter fun d => !(d.compra_id == id) }
        match insertarDetalles s1 id prods 0 with
        | .error e => (.error e, s)
        | .ok (s2, nuevoTotal) =>
          (.ok nuevoTotal,
           { s2 with
             compras := s2.compras.map fun c =>
               if c.id == id then { c with total := nuevoTotal } else c })

/-- Body of PATCH /api/compras/:id/estado.  `typeof x === 'boolean'` means a
field supplied with a non-boolean value is treated exactly like an absent
one, so each flag is an `Option Bool`. -/
structure EstadoReq where
  abonado : Option Bool
  listo : Option Bool
  entregado : Option Bool
deriving DecidableEq

/-- Error kinds of PATCH /api/compras/:id/estado. -/
inductive EstadoError where
  | noFields
  | notFound
deriving DecidableEq

/-- HTTP status for each `EstadoError`. -/
def EstadoError.status : EstadoError → Nat
  | .noFields => 400
  | .notFound => 404

/-- The dynamic `UPDATE compras SET ...` of the estado handler applied to
one row: exactly the supplied boolean flags are written. -/
def aplicarEstado (r : EstadoReq) (c : Compra) : Compra :=
  { c with
    abonado := r.abonado.getD c.abonado
    listo := r.listo.getD c.listo
    entregado := r.entregado.getD c.entregado }

/-- PATCH /api/compras/:id/estado: 400 when no recognised boolean flag is
supplied, 404 when the order does not exist, otherwise update the supplied
flags of the matching row. -/
def actualizarEstado (s : State) (id : Nat) (r : EstadoReq) :
    Except EstadoError Compra × State :=
  if r.abonado.isNone && r.listo.isNone && r.entregado.isNone then
    (.error .noFields, s)
  else
    match findCompra s.compras id with
    | none => (.error .notFound, s)
    | some c =>
      (.ok (aplicarEstado r c),
       { s with
         compras := s.compras.map fun x =>
           if x.id == id then aplicarEstado r x else x })

/-- Error kind shared by the not-found-only handlers. -/
inductive NotFoundError where
  | notFound
deriving DecidableEq

/-- DELETE /api/compras/:id: 404 when the order does not exist, otherwise
delete the row; the `detalle_compra` rows go with it by ON DELETE CASCADE.
Stock is not touched. -/
def eliminarCompra (s : State) (id : Nat) : Except NotFoundError Unit × State :=
  match findCompra s.compras id with
  | none => (.error .notFound, s)
  | some _ =>
    (.ok (),
     { s with
       compras := s.compras.filter fun c => !(c.id == id)
       detalles := s.detalles.filter fun d => !(d.compra_id == id) })

/-- Body of PUT /api/compras/:id (buyer-info edit). -/
structure InfoReq where
  comprador_nombre : Option String
  comprador_telefono : Option String
  comprador_mesa : Option Int
deriving DecidableEq

/-- Error kinds of PUT /api/compras/:id. -/
inductive InfoError where
  | mesaRange
  | notFound
deriving DecidableEq

/-- HTTP status for each `InfoError`. -/
def InfoError.status : InfoError → Nat
  | .mesaRange => 400
  | .notFound => 404

/-- The `COALESCE($i, column)` merge of PUT /api/compras/:id applied to one
row: absent fields keep the stored value. -/
def aplicarInfo (r : InfoReq) (c : Compra) : Compra :=
  { c with
    comprador_nombre := r.comprador_nombre.getD c.comprador_nombre
    comprador_telefono :=
      match r.comprador_telefono with
      | some t => some t
      | none => c.comprador_telefono
    comprador_mesa :=
      match r.comprador_mesa with
      | some m => some m
      | none => c.comprador_mesa }

/-- PUT /api/compras/:id: mesa range check first (1-32 here, with the same
JS-truthiness guard as in creation), then a COALESCE merge update; 404 when
no row matched. -/
def actualizarCompra (s : State) (id : Nat) (r : InfoReq) :
    Except InfoError Compra × State :=
  if mesaFueraDeRango r.comprador_mesa 1 32 then (.error .mesaRange, s)
  else
    match findCompra s.compras id with
    | none => (.error .notFound, s)
    | some c =>
      (.ok (aplicarInfo r c),
       { s with
         compras := s.compras.map fun x =>
           if x.id == id then aplicarInfo r x else x })

/-- GET /api/productos: `WHERE activo = true` plus the optional categoria /
subcategoria filters (the ORDER BY clause only affects presentation order
and is not modelled). -/
def listarProductos (s : State) (categoria subcategoria : Option String) :
    List Producto :=
  s.productos.filter fun p =>
    p.activo
      && (match categoria with
          | some c => p.categoria == c
          | none => true)
      && (match subcategoria with
          | some sc => p.subcategoria == some sc
          | none => true)

/-- GET /api/productos/:id: lookup by id with no activo filter. -/
def obtenerProducto (s : State) (id : Nat) : Option Producto :=
  findProducto s.productos id

/-- Body of PUT /api/productos/:id.  `imagen` is the freshly encoded upload
when a file was sent; otherwise the stored image is kept. -/
structure ProductoUpdateReq where
  nombre : Option String
  categoria : Option String
  subcategoria : Option String
  precio : Option Int
  stock : Option Int
  descripcion : Option String
  imagen : Option String
  activo : Option Bool
deriving DecidableEq

/-- The COALESCE merge of PUT /api/productos/:id applied to one row. -/
def aplicarProductoUpdate (r : ProductoUpdateReq) (p : Producto) : Producto :=
  { p with
    nombre := r.nombre.getD p.nombre
    categoria := r.categoria.getD p.categoria
    subcategoria :=
      match r.subcategoria with
      | some v => some v
      | none => p.subcategoria
    precio := r.precio.getD p.precio
    stock := r.stock.getD p.stock
    descripcion :=
      match r.descripcion with
      | some v => some v
      | none => p.descripcion
    imagen_url :=
      match r.imagen with
      | some v => some v
      | none => p.imagen_url
    activo := r.activo.getD p.activo }

/-- PUT /api/productos/:id: 404 when the product does not exist, otherwise
the COALESCE merge update.  It never touches compras or detalle_compra. -/
def actualizarProducto (s : State) (id : Nat) (r : ProductoUpdateReq) :
    Except NotFoundError Producto × State :=
  match findProducto s.productos id with
  | none => (.error .notFound, s)
  | some p =>
    (.ok (aplicarProductoUpdate r p),
     { s with
       productos := s.productos.map fun x =>
         if x.id == id then aplicarProductoUpdate r x else x })

/-- DELETE /api/productos/:id: soft delete — `UPDATE productos SET activo =
false WHERE id = $1` after an existence check. -/
def eliminarProducto (s : State) (id : Nat) : Except NotFoundError Unit × State :=
  match findProducto s.productos id with
  | none => (.error .notFound, s)
  | some _ =>
    (.ok (),
     { s with
       productos := s.productos.map fun p =>
         if p.id == id then { p with activo := false } else p })

/-! ## Derived observers and predicates used by the statements -/

/-- The stock column of the product with the given id, when it exists. -/
def stockDe (ps : List Producto) (pid : Nat) : Option Int :=
  (findProducto ps pid).map fun p => p.stock

/-- Total quantity requested for one product across the items of an order
(an id may occur in several line items). -/
def sumQty : List ItemReq → Nat → Int
  | [], _ => 0
  | it :: rest, pid =>
    (if it.producto_id == pid then it.cantidad else 0) + sumQty rest pid

/-- The `detalle_compra` rows belonging to one order. -/
def detallesDe (s : State) (cid : Nat) : List DetalleCompra :=
  s.detalles.filter fun d => d.compra_id == cid

/-- Sum of the subtotal column over a list of detalle rows. -/
def sumSubtotales (ds : List DetalleCompra) : Int :=
  (ds.map fun d => d.subtotal).sum

/-- The detalle row the creation loop inserts for one item, with the unit
price read from the given product table. -/
def mkDetalle (ps : List Producto) (cid : Nat) (it : ItemReq) : DetalleCompra :=
  { compra_id := cid
  , producto_id := it.producto_id
  , cantidad := it.cantidad
  , precio_unitario := precioDe ps it.producto_id
  , subtotal := precioDe ps it.producto_id * it.cantidad }

/-- The detalle row PUT /:id/productos inserts for one caller-supplied
entry: stored verbatim. -/
def detalleOfReq (cid : Nat) (p : DetalleReq) : DetalleCompra :=
  { compra_id := cid
  , producto_id := p.producto_id
  , cantidad := p.cantidad
  , precio_unitario := p.precio_unitario
  , subtotal := p.subtotal }

/-- HTTP status of a POST /api/compras response (201 on success). -/
def statusCompra : Except CompraError Compra → Nat
  | .ok _ => 201
  | .error e => e.status

/-- Run a sequence of order creations, keeping only the states. -/
def runCompras (s : State) (rs : List CompraReq) : State :=
  rs.foldl (fun s r => (crearCompra s r).2) s

/-- Every product row has nonnegative stock. -/
def stocksNoNeg (s : State) : Prop :=
  ∀ p ∈ s.productos, 0 ≤ p.stock

instance (s : State) : Decidable (stocksNoNeg s) := by
  unfold stocksNoNeg
  infer_instance

/-- The product table has pairwise-distinct primary keys. -/
def idsNodup (ps : List Producto) : Prop :=
  (ps.map fun p => p.id).Nodup

instance (ps : List Producto) : Decidable (idsNodup ps) := by
  unfold idsNodup
  infer_instance

/-- The items of a creation request name pairwise-distinct product ids. -/
def distinctPids (r : CompraReq) : Prop :=
  match r.productos with
  | some items => (items.map fun it => it.producto_id).Nodup
  | none => True

instance (r : CompraReq) : Decidable (distinctPids r) := by
  unfold distinctPids
  cases r.productos <;> infer_instance

/-! ## Concrete fixtures for witnesses and counterexamples -/

/-- Product 1: price 100, stock 5, active. -/
def prodAna : Producto :=
  { id := 1, nombre := "alfajor", categoria := "comida", subcategoria := none
  , precio := 100, stock := 5, descripcion := none, imagen_url := none
  , activo := true }

/-- A catalog holding just `prodAna`, no orders yet. -/
def stAna : State :=
  { productos := [prodAna], compras := [], detalles := [], nextCompraId := 1 }

/-- Ana's cash order: one item of product 1, quantity 2. -/
def reqAna : CompraReq :=
  { comprador_nombre := some "Ana", comprador_telefono := none
  , comprador_mesa := none, metodo_pago := some "efectivo"
  , comprobante := none, productos := some [{ producto_id := 1, cantidad := 2 }]
  , detalles_pedido := none }

/-- Same order but requesting quantity 9 > stock 5. -/
def reqExcede : CompraReq :=
  { reqAna with productos := some [{ producto_id := 1, cantidad := 9 }] }

/-- Same order but naming product 1 twice, 2 units each. -/
def reqDuplicado : CompraReq :=
  { reqAna with
    productos := some [{ producto_id := 1, cantidad := 2 },
                       { producto_id := 1, cantidad := 2 }] }

/-- Same order but with quantity 0. -/
def reqCantCero : CompraReq :=
  { reqAna with productos := some [{ producto_id := 1, cantidad := 0 }] }

/-- Same order but by transfer with no receipt uploaded. -/
def reqTransferSinComprobante : CompraReq :=
  { reqAna with metodo_pago := some "transferencia" }

/-- Same order but claiming table number 0. -/
def reqMesaCero : CompraReq :=
  { reqAna with comprador_mesa := some 0 }

/-- Same order but claiming table number 51. -/
def reqMesa51 : CompraReq :=
  { reqAna with comprador_mesa := some 51 }

/-- Product 1 with only 3 units in stock. -/
def stStock3 : State :=
  { stAna with productos := [{ prodAna with stock := 3 }] }

/-- An already persisted order of Ana (id 1, total 200) with its single
detalle row, next to the catalog of `stAna`. -/
def compraAna : Compra :=
  { id := 1, comprador_nombre := "Ana", comprador_telefono := none
  , comprador_mesa := none, metodo_pago := "efectivo"
  , comprobante_archivo := none, total := 200, detalles_pedido := none
  , abonado := false, listo := false, entregado := false }

/-- State after Ana's order: product stock already decremented to 3. -/
def stConCompra : State :=
  { productos := [{ prodAna with stock := 3 }]
  , compras := [compraAna]
  , detalles := [{ compra_id := 1, producto_id := 1, cantidad := 2
                 , precio_unitario := 100, subtotal := 200 }]
  , nextCompraId := 2 }

/-- Replacement list: one item of subtotal 500. -/
def reemplazo500 : List DetalleReq :=
  [{ producto_id := 1, cantidad := 1, precio_unitario := 500, subtotal := 500 }]

/-- Replacement list with a unit price and subtotal unrelated to the
product's price. -/
def reemplazoLibre : List DetalleReq :=
  [{ producto_id := 1, cantidad := 2, precio_unitario := 7, subtotal := 999 }]

/-- Status-update body supplying only the abonado (paid) flag. -/
def soloAbonado (b : Bool) : EstadoReq :=
  { abonado := some b, listo := none, entregado := none }

/-- Status-update body supplying no recognised flag. -/
def estadoVacio : EstadoReq :=
  { abonado := none, listo := none, entregado := none }

/-- Buyer-info edit that only supplies table number 0. -/
def infoMesaCero : InfoReq :=
  { comprador_nombre := none, comprador_telefono := none
  , comprador_mesa := some 0 }

/-- Buyer-info edit that only supplies table number 33 (out of 1-32). -/
def infoMesa33 : InfoReq :=
  { comprador_nombre := none, comprador_telefono := none
  , comprador_mesa := some 33 }

/-! ## Helper lemmas -/

theorem find?_map_pres {α : Type} (l : List α) (f : α → α) (p : α → Bool)
    (hf : ∀ a, p (f a) = p a) :
    (l.map f).find? p = (l.find? p).map f := by
  rw [List.find?_map]
  have h : (p ∘ f) = p := funext hf
  rw [h]

theorem findProducto_map (ps : List Producto) (f : Producto → Producto)
    (hf : ∀ p, (f p).id = p.id) (pid : Nat) :
    findProducto (ps.map f) pid = (findProducto ps pid).map f := by
  unfold findProducto
  exact find?_map_pres ps f _ fun a => by rw [hf]

theorem findCompra_map (cs : List Compra) (f : Compra → Compra)
    (hf : ∀ c, (f c).id = c.id) (id : Nat) :
    findCompra (cs.map f) id = (findCompra cs id).map f := by
  unfold findCompra
  exact find?_map_pres cs f _ fun a => by rw [hf]

theorem precioDe_decStock (ps : List Producto) (pid : Nat) (q : Int) (x : Nat) :
    precioDe (decStock ps pid q) x = precioDe ps x := by
  unfold precioDe decStock
  rw [findProducto_map ps _ (fun p => by split <;> rfl) x]
  cases findProducto ps x with
  | none => rfl
  | some p =>
    dsimp only [Option.map]
    split <;> rfl

theorem commitItems_productos :
    ∀ (items : List ItemReq) (s : State) (cid : Nat),
      (commitItems s cid items).productos
        = s.productos.map fun p => { p with stock := p.stock - sumQty items p.id }
  | [], s, cid => by
    simp only [commitItems]
    have h : (fun p : Producto => { p with stock := p.stock - sumQty [] p.id })
        = id := by
      funext p
      simp only [sumQty, sub_zero, id]
    rw [h, List.map_id]
  | it :: rest, s, cid => by
    simp only [commitItems]
    rw [commitItems_productos rest]
    show (decStock s.productos it.producto_id it.cantidad).map _ = _
    unfold decStock
    rw [List.map_map]
    have h : ((fun p : Producto => { p with stock := p.stock - sumQty rest p.id }) ∘
          fun p : Producto =>
            if p.id == it.producto_id then { p with stock := p.stock - it.cantidad }
            else p)
        = fun p : Producto => { p with stock := p.stock - sumQty (it :: rest) p.id } := by
      funext p
      by_cases hp : p.id = it.producto_id
      · simp [Function.comp, hp, sumQty, sub_sub]
      · simp [Function.comp, hp, Ne.symm hp, sumQty]
    rw [h]

theorem commitItems_detalles :
    ∀ (items : List ItemReq) (s : State) (cid : Nat),
      (commitItems s cid items).detalles
        = s.detalles ++ items.map (mkDetalle s.productos cid)
  | [], s, cid => by simp [commitItems]
  | it :: rest, s, cid => by
    simp only [commitItems]
    rw [commitItems_detalles rest]
    have h : mkDetalle (decStock s.productos it.producto_id it.cantidad) cid
        = mkDetalle s.productos cid := by
      funext x
      unfold mkDetalle
      rw [precioDe_decStock]
    dsimp only
    rw [h, List.append_assoc]
    rfl

theorem commitItems_compras :
    ∀ (items : List ItemReq) (s : State) (cid : Nat),
      (commitItems s cid items).compras = s.compras
  | [], _, _ => rfl
  | it :: rest, s, cid => by
    simp only [commitItems]
    rw [commitItems_compras rest]

theorem foldl_add_sum (f : ItemReq → Int) :
    ∀ (items : List ItemReq) (a : Int),
      items.foldl (fun acc it => acc + f it) a = a + (items.map f).sum
  | [], a => by simp
  | it :: rest, a => by
    simp only [List.foldl, List.map, List.sum_cons]
    rw [foldl_add_sum f rest]
    ring

theorem calcTotal_eq (ps : List Producto) (items : List ItemReq) :
    calcTotal ps items
      = (items.map fun it => precioDe ps it.producto_id * it.cantidad).sum := by
  unfold calcTotal
  rw [foldl_add_sum]
  ring

theorem validarStock_none_forall (ps : List Producto) (items : List ItemReq)
    (h : validarStock ps items = none) :
    ∀ it ∈ items, ∃ p, findProductoActivo ps it.producto_id = some p ∧
      it.cantidad ≤ p.stock := by
  induction items with
  | nil => intro it hit; cases hit
  | cons a rest ih =>
    intro it hit
    cases hfind : findProductoActivo ps a.producto_id with
    | none => simp [validarStock, hfind] at h
    | some p =>
      by_cases hs : p.stock < a.cantidad
      · simp [validarStock, hfind, hs] at h
      · simp only [validarStock, hfind, if_neg hs] at h
        cases hit with
        | head => exact ⟨p, hfind, le_of_not_lt hs⟩
        | tail _ hmem => exact ih h it hmem

theorem validarStock_insufficient (ps : List Producto) (items : List ItemReq)
    (hfound : ∀ it ∈ items, (findProductoActivo ps it.producto_id).isSome = true)
    (hover : ∃ it ∈ items, ∀ p,
      findProductoActivo ps it.producto_id = some p → p.stock < it.cantidad) :
    ∃ pid, validarStock ps items = some (.insufficientStock pid) := by
  induction items with
  | nil =>
    obtain ⟨it, hit, -⟩ := hover
    cases hit
  | cons a rest ih =>
    have hfa := hfound a (List.mem_cons_self a rest)
    cases hfind : findProductoActivo ps a.producto_id with
    | none => simp [hfind] at hfa
    | some p =>
      by_cases hs : p.stock < a.cantidad
      · exact ⟨a.producto_id, by simp only [validarStock, hfind, if_pos hs]⟩
      · obtain ⟨it, hit, hover'⟩ := hover
        cases hit with
        | head => exact absurd (hover' p hfind) hs
        | tail _ hmem =>
          obtain ⟨pid, hpid⟩ :=
            ih (fun x hx => hfound x (List.mem_cons_of_mem a hx)) ⟨it, hmem, hover'⟩
          exact ⟨pid, by simp only [validarStock, hfind, if_neg hs]; exact hpid⟩

theorem receiptCheckFalse (r : CompraReq)
    (h2 : r.metodo_pago = some "efectivo" ∨ r.metodo_pago = some "transferencia")
    (h4 : r.metodo_pago = some "transferencia" → r.comprobante.isSome = true) :
    (r.metodo_pago == some "transferencia" && r.comprobante.isNone) = false := by
  rcases h2 with h | h
  · rw [h, show (some "efectivo" == some "transferencia") = false from rfl,
      Bool.false_and]
  · have hc := h4 h
    obtain ⟨c, hcc⟩ := Option.isSome_iff_exists.mp hc
    rw [h, hcc]
    simp

theorem crearCompra_ok (s : State) (r : CompraReq) (items : List ItemReq)
    (h1 : jsFalsyStr r.comprador_nombre = false)
    (h2 : r.metodo_pago = some "efectivo" ∨ r.metodo_pago = some "transferencia")
    (h3 : mesaFueraDeRango r.comprador_mesa 1 50 = false)
    (h4 : r.metodo_pago = some "transferencia" → r.comprobante.isSome = true)
    (h5 : r.productos = some items)
    (h6 : items ≠ [])
    (h7 : validarStock s.productos items = none)
    (h8 : comprobanteDemasiadoGrande r.comprobante = false) :
    crearCompra s r =
      (.ok (mkCompraRow s r items),
       commitItems
         { s with
           compras := s.compras ++ [mkCompraRow s r items]
           nextCompraId := s.nextCompraId + 1 }
         s.nextCompraId items) := by
  have hfm : jsFalsyStr r.metodo_pago = false := by
    rcases h2 with h | h <;> rw [h] <;> rfl
  have hvalid : (r.metodo_pago == some "efectivo"
      || r.metodo_pago == some "transferencia") = true := by
    rcases h2 with h | h <;> rw [h] <;> decide
  have hrec := receiptCheckFalse r h2 h4
  have h6' : items.isEmpty = false := by
    cases items with
    | nil => exact absurd rfl h6
    | cons a l => rfl
  unfold crearCompra
  rw [h1, hfm, h3, hvalid, hrec, h5]
  simp only [Bool.or_self, Bool.false_eq_true, if_false, Bool.not_true,
    Bool.true_eq_false, h6', h7, h8]
  rfl

theorem crearCompra_error_insufficient (s : State) (r : CompraReq)
    (items : List ItemReq)
    (h1 : jsFalsyStr r.comprador_nombre = false)
    (h2 : r.metodo_pago = some "efectivo" ∨ r.metodo_pago = some "transferencia")
    (h3 : mesaFueraDeRango r.comprador_mesa 1 50 = false)
    (h4 : r.metodo_pago = some "transferencia" → r.comprobante.isSome = true)
    (h5 : r.productos = some items)
    (hfound : ∀ it ∈ items, (findProductoActivo s.productos it.producto_id).isSome = true)
    (hover : ∃ it ∈ items, ∀ p,
      findProductoActivo s.productos it.producto_id = some p → p.stock < it.cantidad) :
    ∃ pid, crearCompra s r = (.error (.insufficientStock pid), s) := by
  obtain ⟨pid, hv⟩ := validarStock_insufficient s.productos items hfound hover
  have h6' : items.isEmpty = false := by
    obtain ⟨it, hit, -⟩ := hover
    cases items with
    | nil => cases hit
    | cons a l => rfl
  have hfm : jsFalsyStr r.metodo_pago = false := by
    rcases h2 with h | h <;> rw [h] <;> rfl
  have hvalid : (r.metodo_pago == some "efectivo"
      || r.metodo_pago == some "transferencia") = true := by
    rcases h2 with h | h <;> rw [h] <;> decide
  have hrec := receiptCheckFalse r h2 h4
  refine ⟨pid, ?_⟩
  unfold crearCompra
  rw [h1, hfm, h3, hvalid, hrec, h5]
  simp only [Bool.or_self, Bool.false_eq_true, if_false, Bool.not_true,
    Bool.true_eq_false, h6', hv]

theorem crearCompra_error_missingReceipt (s : State) (r : CompraReq)
    (h1 : jsFalsyStr r.comprador_nombre = false)
    (h3 : mesaFueraDeRango r.comprador_mesa 1 50 = false)
    (hm : r.metodo_pago = some "transferencia")
    (hf : r.comprobante = none) :
    crearCompra s r = (.error .missingReceipt, s) := by
  unfold crearCompra
  rw [h1, hm, h3, hf]
  simp only [jsFalsyStr, String.isEmpty, Bool.or_self, Bool.false_eq_true,
    if_false]
  rfl

theorem crearCompra_error_mesaRange (s : State) (r : CompraReq)
    (h1 : jsFalsyStr r.comprador_nombre = false)
    (h1' : jsFalsyStr r.metodo_pago = false)
    (hm : mesaFueraDeRango r.comprador_mesa 1 50 = true) :
    crearCompra s r = (.error .mesaRange, s) := by
  unfold crearCompra
  rw [h1, h1', hm]
  simp only [Bool.or_self, Bool.false_eq_true, if_false, if_true]

theorem stockDe_map_sub (ps : List Producto) (g : Nat → Int) (pid : Nat) :
    stockDe (ps.map fun p => { p with stock := p.stock - g p.id }) pid
      = (stockDe ps pid).map fun v => v - g pid := by
  unfold stockDe
  rw [findProducto_map ps (fun p => { p with stock := p.stock - g p.id })
    (fun p => rfl) pid]
  cases hfind : findProducto ps pid with
  | none => rfl
  | some p =>
    have hid : p.id = pid := by
      have h := List.find?_some hfind
      exact eq_of_beq h
    dsimp only [Option.map]
    rw [hid]

theorem producto_unique (ps : List Producto) (h : idsNodup ps)
    (p q : Producto) (hp : p ∈ ps) (hq : q ∈ ps) (hid : p.id = q.id) :
    p = q :=
  List.inj_on_of_nodup_map h hp hq hid

theorem findProductoActivo_spec (ps : List Producto) (pid : Nat) (q : Producto)
    (h : findProductoActivo ps pid = some q) :
    q ∈ ps ∧ q.id = pid ∧ q.activo = true := by
  refine ⟨List.mem_of_find?_eq_some h, ?_, ?_⟩
  · have hb := List.find?_some h
    rw [Bool.and_eq_true] at hb
    exact eq_of_beq hb.1
  · have hb := List.find?_some h
    rw [Bool.and_eq_true] at hb
    exact hb.2

theorem sumQty_zero (items : List ItemReq) (pid : Nat)
    (h : ∀ it ∈ items, it.producto_id ≠ pid) : sumQty items pid = 0 := by
  induction items with
  | nil => rfl
  | cons a rest ih =>
    rw [sumQty]
    have ha : (a.producto_id == pid) = false := by
      simp [h a (List.mem_cons_self a rest)]
    simp [ha, ih fun x hx => h x (List.mem_cons_of_mem a hx)]

theorem sumQty_nodup (items : List ItemReq) (pid : Nat)
    (hnd : (items.map fun it => it.producto_id).Nodup)
    (it : ItemReq) (hit : it ∈ items) (hpid : it.producto_id = pid) :
    sumQty items pid = it.cantidad := by
  induction items with
  | nil => cases hit
  | cons a rest ih =>
    rw [List.map_cons, List.nodup_cons] at hnd
    cases hit with
    | head =>
      rw [sumQty]
      have hz : sumQty rest pid = 0 := by
        apply sumQty_zero
        intro x hx hxe
        have hm : x.producto_id ∈ List.map (fun it => it.producto_id) rest :=
          List.mem_map_of_mem _ hx
        rw [hxe, ← hpid] at hm
        exact hnd.1 hm
      simp [hpid, hz]
    | tail _ hmem =>
      have hne : a.producto_id ≠ pid := by
        intro he
        have hm : it.producto_id ∈ List.map (fun x => x.producto_id) rest :=
          List.mem_map_of_mem _ hmem
        rw [hpid, ← he] at hm
        exact hnd.1 hm
      rw [sumQty]
      have ha : (a.producto_id == pid) = false := by simp [hne]
      simp [ha, ih hnd.2 hmem]

theorem insertarDetalles_ok :
    ∀ (prods : List DetalleReq) (s : State) (cid : Nat) (acc : Int),
      (∀ p ∈ prods, (findProducto s.productos p.producto_id).isSome = true) →
      insertarDetalles s cid prods acc =
        .ok ({ s with detalles := s.detalles ++ prods.map (detalleOfReq cid) },
             acc + (prods.map fun p => p.subtotal).sum)
  | [], s, cid, acc, _ => by simp [insertarDetalles]
  | prod :: rest, s, cid, acc, hall => by
    have hp := hall prod (List.mem_cons_self prod rest)
    obtain ⟨q, hq⟩ := Option.isSome_iff_exists.mp hp
    simp only [insertarDetalles, hq]
    rw [insertarDetalles_ok rest
      { s with
        detalles := s.detalles ++
          [{ compra_id := cid
           , producto_id := prod.producto_id
           , cantidad := prod.cantidad
           , precio_unitario := prod.precio_unitario
           , subtotal := prod.subtotal }] }
      cid (acc + prod.subtotal)
      (fun x hx => hall x (List.mem_cons_of_mem prod hx))]
    simp only [List.map_cons, List.sum_cons, List.append_assoc, add_assoc]
    rfl

theorem crearCompra_cases (s : State) (r : CompraReq) :
    (crearCompra s r).2 = s ∨
    ∃ items, r.productos = some items ∧
      validarStock s.productos items = none ∧
      (crearCompra s r).2 =
        commitItems
          { s with
            compras := s.compras ++ [mkCompraRow s r items]
            nextCompraId := s.nextCompraId + 1 }
          s.nextCompraId items := by
  unfold crearCompra
  split
  · exact Or.inl rfl
  split
  · exact Or.inl rfl
  split
  · exact Or.inl rfl
  split
  · exact Or.inl rfl
  split
  · exact Or.inl rfl
  next items hprod =>
    split
    · exact Or.inl rfl
    split
    next e hval => exact Or.inl rfl
    next hval =>
      split
      · exact Or.inl rfl
      · exact Or.inr ⟨items, hprod, hval, rfl⟩

theorem crearCompra_stocksNoNeg (s : State) (r : CompraReq)
    (hids : idsNodup s.productos) (hd : distinctPids r) (h : stocksNoNeg s) :
    stocksNoNeg (crearCompra s r).2 := by
  rcases crearCompra_cases s r with heq | ⟨items, hprod, hval, heq⟩
  · rw [heq]; exact h
  · rw [heq]
    intro p' hp'
    rw [commitItems_productos] at hp'
    obtain ⟨p, hp, rfl⟩ := List.mem_map.mp hp'
    show 0 ≤ p.stock - sumQty items p.id
    by_cases hex : ∃ it ∈ items, it.producto_id = p.id
    · obtain ⟨it, hit, hide⟩ := hex
      have hnd : (items.map fun it => it.producto_id).Nodup := by
        have hd' := hd
        unfold distinctPids at hd'
        rw [hprod] at hd'
        exact hd'
      rw [sumQty_nodup items p.id hnd it hit hide]
      obtain ⟨q, hfq, hsq⟩ := validarStock_none_forall s.productos items hval it hit
      obtain ⟨hqmem, hqid, -⟩ := findProductoActivo_spec s.productos it.producto_id q hfq
      have hqp : q = p :=
        producto_unique s.productos hids q p hqmem hp (by rw [hqid, hide])
      rw [← hqp]
      omega
    · push_neg at hex
      rw [sumQty_zero items p.id hex, sub_zero]
      exact h p hp

theorem crearCompra_pids (s : State) (r : CompraReq) :
    (crearCompra s r).2.productos.map (fun p => p.id)
      = s.productos.map fun p => p.id := by
  rcases crearCompra_cases s r with heq | ⟨items, hprod, hval, heq⟩
  · rw [heq]
  · rw [heq, commitItems_productos, List.map_map]
    rfl

theorem findCompra_update (cs : List Compra) (id : Nat) (c : Compra)
    (f : Compra → Compra) (hf : ∀ x, (f x).id = x.id)
    (hc : findCompra cs id = some c) :
    findCompra (cs.map fun x => if x.id == id then f x else x) id
      = some (f c) := by
  rw [findCompra_map cs _ (fun x => by split; exacts [hf x, rfl]) id, hc]
  have hc' : cs.find? (fun x => x.id == id) = some c := hc
  have hid := List.find?_some hc'
  simp only [Option.map_some']
  rw [if_pos hid]

theorem mem_map_update_of_ne (cs : List Compra)
    (id : Nat) (f : Compra → Compra) (x : Compra) (hx : x ∈ cs)
    (hne : x.id ≠ id) :
    x ∈ cs.map fun y => if y.id == id then f y else y := by
  refine List.mem_map.mpr ⟨x, hx, ?_⟩
  have h : (x.id == id) = false := by simp [hne]
  rw [h]
  simp

theorem detalles_reemplazo (ds : List DetalleCompra) (id : Nat)
    (prods : List DetalleReq) :
    ((ds.filter fun d => !(d.compra_id == id)) ++ prods.map (detalleOfReq id)).filter
        (fun d => d.compra_id == id)
      = prods.map (detalleOfReq id) := by
  rw [List.filter_append]
  have h1 : (ds.filter fun d => !(d.compra_id == id)).filter
      (fun d => d.compra_id == id) = [] := by
    rw [List.filter_filter]
    have hfun : (fun a : DetalleCompra =>
        (a.compra_id == id) && !(a.compra_id == id)) = fun a => false := by
      funext a
      exact Bool.and_not_self _
    rw [hfun]
    simp
  have h2 : (prods.map (detalleOfReq id)).filter (fun d => d.compra_id == id)
      = prods.map (detalleOfReq id) := by
    rw [List.filter_eq_self]
    intro a ha
    obtain ⟨p, -, rfl⟩ := List.mem_map.mp ha
    simp [detalleOfReq]
  rw [h1, h2, List.nil_append]

theorem actualizarProductos_ok (s : State) (id : Nat) (c : Compra)
    (prods : List DetalleReq)
    (hc : findCompra s.compras id = some c)
    (hne : prods ≠ [])
    (hall : ∀ p ∈ prods, (findProducto s.productos p.producto_id).isSome = true) :
    actualizarProductosDeCompra s id (some prods) =
      (.ok ((prods.map fun p => p.subtotal).sum),
       { s with
         detalles := (s.detalles.filter fun d => !(d.compra_id == id))
             ++ prods.map (detalleOfReq id)
         compras := s.compras.map fun x =>
           if x.id == id then { x with total := (prods.map fun p => p.subtotal).sum }
           else x }) := by
  have hne' : prods.isEmpty = false := by
    cases prods with
    | nil => exact absurd rfl hne
    | cons a l => rfl
  unfold actualizarProductosDeCompra
  rw [hc]
  simp only [hne', Bool.false_eq_true, if_false]
  rw [insertarDetalles_ok prods
    { s with detalles := s.detalles.filter fun d => !(d.compra_id == id) }
    id 0 hall]
  simp only [zero_add]

theorem crearCompra_detalles (s : State) (r : CompraReq) (items : List ItemReq)
    (h1 : jsFalsyStr r.comprador_nombre = false)
    (h2 : r.metodo_pago = some "efectivo" ∨ r.metodo_pago = some "transferencia")
    (h3 : mesaFueraDeRango r.comprador_mesa 1 50 = false)
    (h4 : r.metodo_pago = some "transferencia" → r.comprobante.isSome = true)
    (h5 : r.productos = some items)
    (h6 : items ≠ [])
    (h7 : validarStock s.productos items = none)
    (h8 : comprobanteDemasiadoGrande r.comprobante = false)
    (hfresh : ∀ d ∈ s.detalles, d.compra_id ≠ s.nextCompraId) :
    detallesDe (crearCompra s r).2 s.nextCompraId
      = items.map (mkDetalle s.productos s.nextCompraId) := by
  rw [crearCompra_ok s r items h1 h2 h3 h4 h5 h6 h7 h8]
  unfold detallesDe
  rw [commitItems_detalles]
  show (s.detalles ++ items.map (mkDetalle s.productos s.nextCompraId)).filter _ = _
  rw [List.filter_append]
  have hold : s.detalles.filter (fun d => d.compra_id == s.nextCompraId) = [] := by
    rw [List.filter_eq_nil_iff]
    intro d hd
    simp [hfresh d hd]
  have hnew : (items.map (mkDetalle s.productos s.nextCompraId)).filter
      (fun d => d.compra_id == s.nextCompraId)
      = items.map (mkDetalle s.productos s.nextCompraId) := by
    rw [List.filter_eq_self]
    intro a ha
    obtain ⟨it, -, rfl⟩ := List.mem_map.mp ha
    simp [mkDetalle]
  rw [hold, hnew, List.nil_append]

/-! ## Claim theorems -/

/-- C1: for every order-creation request that reaches the stock check
(buyer name present, payment method valid, table number accepted, receipt
present when the method requires one, items parsed to a list, every
referenced product existing and available) in which at least one line
item's requested quantity exceeds the referenced product's available
stock, POST /api/compras fails with the insufficient-stock error and HTTP
status 400, and the returned state is exactly the input state: no
product's stock changes and no order row or line-item rows are
persisted. -/
theorem C1_stock_insuficiente_aborta (s : State) (r : CompraReq)
    (items : List ItemReq)
    (h1 : jsFalsyStr r.comprador_nombre = false)
    (h2 : r.metodo_pago = some "efectivo" ∨ r.metodo_pago = some "transferencia")
    (h3 : mesaFueraDeRango r.comprador_mesa 1 50 = false)
    (h4 : r.metodo_pago = some "transferencia" → r.comprobante.isSome = true)
    (h5 : r.productos = some items)
    (hfound : ∀ it ∈ items,
      (findProductoActivo s.productos it.producto_id).isSome = true)
    (hover : ∃ it ∈ items, ∃ p,
      findProductoActivo s.productos it.producto_id = some p ∧
        p.stock < it.cantidad) :
    ∃ pid, crearCompra s r = (.error (.insufficientStock pid), s) ∧
      statusCompra (crearCompra s r).1 = 400 := by
  have hover' : ∃ it ∈ items, ∀ p,
      findProductoActivo s.productos it.producto_id = some p →
        p.stock < it.cantidad := by
    obtain ⟨it, hit, p, hfp, hlt⟩ := hover
    refine ⟨it, hit, fun q hq => ?_⟩
    rw [hfp] at hq
    cases hq
    exact hlt
  obtain ⟨pid, hp⟩ :=
    crearCompra_error_insufficient s r items h1 h2 h3 h4 h5 hfound hover'
  exact ⟨pid, hp, by rw [hp]; rfl⟩

/-- Witness for C1: Ana asks for 9 units of product 1 while only 5 are in
stock; the call answers insufficient-stock with status 400 and the state
is untouched. -/
theorem C1_witness :
    (jsFalsyStr reqExcede.comprador_nombre = false ∧
     reqExcede.metodo_pago = some "efectivo" ∧
     mesaFueraDeRango reqExcede.comprador_mesa 1 50 = false ∧
     reqExcede.productos = some [{ producto_id := 1, cantidad := 9 }] ∧
     findProductoActivo stAna.productos 1 = some prodAna ∧
     prodAna.stock < 9) ∧
    ∃ pid, crearCompra stAna reqExcede = (.error (.insufficientStock pid), stAna) ∧
      statusCompra (crearCompra stAna reqExcede).1 = 400 :=
  ⟨by decide,
   C1_stock_insuficiente_aborta stAna reqExcede
     [{ producto_id := 1, cantidad := 9 }]
     (by decide) (Or.inl (by decide)) (by decide) (by decide) (by decide)
     (by decide)
     ⟨{ producto_id := 1, cantidad := 9 }, by decide, prodAna, rfl, by decide⟩⟩

/-- C2: for every order-creation request that passes all validations
(required fields, table range, payment method, receipt when required,
non-empty parsed items, stock check, receipt size), POST /api/compras
succeeds with status 201, the order row is appended with total equal to
the sum over the line items of current product price times quantity, and
every product's stock column decreases by exactly the quantity requested
for it.  Instantiated by the witness at the Ana scenario (price 100,
stock 5, quantity 2: total 200, stock becomes 3). -/
theorem C2_compra_valida_exitosa (s : State) (r : CompraReq)
    (items : List ItemReq)
    (h1 : jsFalsyStr r.comprador_nombre = false)
    (h2 : r.metodo_pago = some "efectivo" ∨ r.metodo_pago = some "transferencia")
    (h3 : mesaFueraDeRango r.comprador_mesa 1 50 = false)
    (h4 : r.metodo_pago = some "transferencia" → r.comprobante.isSome = true)
    (h5 : r.productos = some items)
    (h6 : items ≠ [])
    (h7 : validarStock s.productos items = none)
    (h8 : comprobanteDemasiadoGrande r.comprobante = false) :
    statusCompra (crearCompra s r).1 = 201 ∧
    (∀ pid, stockDe (crearCompra s r).2.productos pid
        = (stockDe s.productos pid).map fun v => v - sumQty items pid) ∧
    ∃ c, (crearCompra s r).1 = .ok c ∧
      (crearCompra s r).2.compras = s.compras ++ [c] ∧
      c.total = (items.map fun it =>
        precioDe s.productos it.producto_id * it.cantidad).sum := by
  have hok := crearCompra_ok s r items h1 h2 h3 h4 h5 h6 h7 h8
  refine ⟨by rw [hok]; rfl, ?_, ?_⟩
  · intro pid
    rw [hok]
    show stockDe (commitItems _ _ items).productos pid = _
    rw [commitItems_productos]
    exact stockDe_map_sub s.productos (fun i => sumQty items i) pid
  · refine ⟨mkCompraRow s r items, by rw [hok], ?_, ?_⟩
    · rw [hok]
      show (commitItems _ _ items).compras = _
      rw [commitItems_compras]
    · show calcTotal s.productos items = _
      exact calcTotal_eq s.productos items

/-- Witness for C2: the Ana scenario.  Product 1 has price 100 and stock 5;
the order for 2 units succeeds with status 201, the persisted total is 200
and the stock becomes 3. -/
theorem C2_witness :
    (jsFalsyStr reqAna.comprador_nombre = false ∧
     reqAna.metodo_pago = some "efectivo" ∧
     validarStock stAna.productos [{ producto_id := 1, cantidad := 2 }] = none ∧
     precioDe stAna.productos 1 = 100 ∧
     stockDe stAna.productos 1 = some 5) ∧
    (statusCompra (crearCompra stAna reqAna).1 = 201 ∧
     (∀ pid, stockDe (crearCompra stAna reqAna).2.productos pid
        = (stockDe stAna.productos pid).map fun v =>
            v - sumQty [{ producto_id := 1, cantidad := 2 }] pid) ∧
     ∃ c, (crearCompra stAna reqAna).1 = .ok c ∧
       (crearCompra stAna reqAna).2.compras = stAna.compras ++ [c] ∧
       c.total = ([({ producto_id := 1, cantidad := 2 } : ItemReq)].map fun it =>
         precioDe stAna.productos it.producto_id * it.cantidad).sum) ∧
    (stockDe (crearCompra stAna reqAna).2.productos 1 = some 3 ∧
     ((crearCompra stAna reqAna).2.compras.map fun c => c.total) = [200]) :=
  ⟨by decide,
   C2_compra_valida_exitosa stAna reqAna [{ producto_id := 1, cantidad := 2 }]
     (by decide) (Or.inl (by decide)) (by decide) (by decide) (by decide)
     (by decide) (by decide) (by decide),
   by decide⟩

/-- Counterexample to C3 as stated: from a state whose only product has
stock 3 (all stocks nonnegative), the order that names product 1 in two
line items of 2 units each passes the per-item stock check (2 ≤ 3 twice),
succeeds with 201, and leaves the product with stock -1. -/
theorem C3_counterexample :
    stocksNoNeg stStock3 ∧
    statusCompra (crearCompra stStock3 reqDuplicado).1 = 201 ∧
    stockDe (crearCompra stStock3 reqDuplicado).2.productos 1 = some (-1) ∧
    ¬ stocksNoNeg (crearCompra stStock3 reqDuplicado).2 := by decide

/-- C3 (amended): every product's stock is a nonnegative integer, and this
is preserved by every sequence of order creations in which no request
names the same product id in more than one line item; for a state with
pairwise-distinct product ids and all stocks nonnegative, all stocks
remain nonnegative afterwards.  (As frozen the claim also covered
duplicate product ids in one request, which the code oversells: see the
counterexample.) -/
theorem C3_amended_stock_no_negativo (s : State) (rs : List CompraReq)
    (hids : idsNodup s.productos)
    (hd : ∀ r ∈ rs, distinctPids r)
    (h0 : stocksNoNeg s) :
    stocksNoNeg (runCompras s rs) := by
  induction rs generalizing s with
  | nil => exact h0
  | cons r rest ih =>
    show stocksNoNeg (runCompras (crearCompra s r).2 rest)
    apply ih
    · unfold idsNodup
      rw [crearCompra_pids]
      exact hids
    · exact fun x hx => hd x (List.mem_cons_of_mem r hx)
    · exact crearCompra_stocksNoNeg s r hids (hd r (List.mem_cons_self r rest)) h0

/-- Witness for C3 (amended): one creation of Ana's order from the
single-product catalog keeps all stocks nonnegative. -/
theorem C3_witness :
    (idsNodup stAna.productos ∧ (∀ r ∈ [reqAna], distinctPids r) ∧
      stocksNoNeg stAna) ∧
    stocksNoNeg (runCompras stAna [reqAna]) :=
  ⟨⟨by decide, by decide, by decide⟩,
   C3_amended_stock_no_negativo stAna [reqAna] (by decide) (by decide)
     (by decide)⟩

/-- C4: for every order the persisted total equals the sum of its line
items' subtotals immediately after creation (given a fresh order id) and
after every line-item replacement; the replacement deletes all previous
line items of the order, persists exactly the supplied rows, and sets the
order's total to the sum of the supplied subtotals. -/
theorem C4_total_igual_suma_subtotales :
    (∀ (s : State) (r : CompraReq) (items : List ItemReq) (c : Compra),
      jsFalsyStr r.comprador_nombre = false →
      (r.metodo_pago = some "efectivo" ∨ r.metodo_pago = some "transferencia") →
      mesaFueraDeRango r.comprador_mesa 1 50 = false →
      (r.metodo_pago = some "transferencia" → r.comprobante.isSome = true) →
      r.productos = some items →
      items ≠ [] →
      validarStock s.productos items = none →
      comprobanteDemasiadoGrande r.comprobante = false →
      (∀ d ∈ s.detalles, d.compra_id ≠ s.nextCompraId) →
      (crearCompra s r).1 = .ok c →
      sumSubtotales (detallesDe (crearCompra s r).2 c.id) = c.total) ∧
    (∀ (s : State) (id : Nat) (c : Compra) (prods : List DetalleReq),
      findCompra s.compras id = some c →
      prods ≠ [] →
      (∀ p ∈ prods, (findProducto s.productos p.producto_id).isSome = true) →
      ∃ s', actualizarProductosDeCompra s id (some prods)
          = (.ok ((prods.map fun p => p.subtotal).sum), s') ∧
        detallesDe s' id = prods.map (detalleOfReq id) ∧
        findCompra s'.compras id
          = some { c with total := (prods.map fun p => p.subtotal).sum } ∧
        sumSubtotales (detallesDe s' id)
          = (prods.map fun p => p.subtotal).sum) := by
  constructor
  · intro s r items c h1 h2 h3 h4 h5 h6 h7 h8 hfresh hc
    have hok := crearCompra_ok s r items h1 h2 h3 h4 h5 h6 h7 h8
    rw [hok] at hc
    have hc' : Except.ok (mkCompraRow s r items) = Except.ok c := hc
    injection hc' with h
    subst h
    have hd := crearCompra_detalles s r items h1 h2 h3 h4 h5 h6 h7 h8 hfresh
    show sumSubtotales (detallesDe (crearCompra s r).2 s.nextCompraId) = _
    rw [hd]
    unfold sumSubtotales
    rw [List.map_map]
    show (items.map fun it =>
      precioDe s.productos it.producto_id * it.cantidad).sum
        = calcTotal s.productos items
    rw [calcTotal_eq]
  · intro s id c prods hc hne hall
    have hok := actualizarProductos_ok s id c prods hc hne hall
    have hdet : detallesDe
        { s with
          detalles := (s.detalles.filter fun d => !(d.compra_id == id))
              ++ prods.map (detalleOfReq id)
          compras := s.compras.map fun x =>
            if x.id == id then
              { x with total := (prods.map fun p => p.subtotal).sum }
            else x }
        id = prods.map (detalleOfReq id) := by
      unfold detallesDe
      exact detalles_reemplazo s.detalles id prods
    refine ⟨_, hok, hdet, ?_, ?_⟩
    · exact findCompra_update s.compras id c _ (fun x => rfl) hc
    · rw [hdet]
      unfold sumSubtotales
      rw [List.map_map]
      rfl

/-- Witness for C4: after Ana's creation the single detalle row (subtotal
200) sums to the persisted total 200; replacing the stored order's line
items by one row of subtotal 500 deletes the old row, persists exactly the
new one and sets the total to 500. -/
theorem C4_witness :
    ((∀ d ∈ stAna.detalles, d.compra_id ≠ stAna.nextCompraId) ∧
     (crearCompra stAna reqAna).1
       = .ok (mkCompraRow stAna reqAna
           [({ producto_id := 1, cantidad := 2 } : ItemReq)]) ∧
     sumSubtotales (detallesDe (crearCompra stAna reqAna).2
         (mkCompraRow stAna reqAna
           [({ producto_id := 1, cantidad := 2 } : ItemReq)]).id)
       = (mkCompraRow stAna reqAna
           [({ producto_id := 1, cantidad := 2 } : ItemReq)]).total) ∧
    (findCompra stConCompra.compras 1 = some compraAna ∧
     (reemplazo500.map fun p => p.subtotal).sum = 500 ∧
     ∃ s', actualizarProductosDeCompra stConCompra 1 (some reemplazo500)
         = (.ok ((reemplazo500.map fun p => p.subtotal).sum), s') ∧
       detallesDe s' 1 = reemplazo500.map (detalleOfReq 1) ∧
       findCompra s'.compras 1
         = some { compraAna with
             total := (reemplazo500.map fun p => p.subtotal).sum } ∧
       sumSubtotales (detallesDe s' 1)
         = (reemplazo500.map fun p => p.subtotal).sum) :=
  ⟨⟨by decide, by decide,
    C4_total_igual_suma_subtotales.1 stAna reqAna
      [({ producto_id := 1, cantidad := 2 } : ItemReq)]
      (mkCompraRow stAna reqAna [({ producto_id := 1, cantidad := 2 } : ItemReq)])
      (by decide) (Or.inl (by decide)) (by decide) (by decide) (by decide)
      (by decide) (by decide) (by decide) (by decide) (by decide)⟩,
   ⟨by decide, by decide,
    C4_total_igual_suma_subtotales.2 stConCompra 1 compraAna reemplazo500
      (by decide) (by decide) (by decide)⟩⟩

/-- Counterexample to C5 as stated: the code never checks cantidad ≥ 1, so
an order for 0 units of product 1 succeeds and persists a line item with
cantidad 0; and line-item replacement stores the caller-supplied unit
price 7 and subtotal 999 verbatim even though the product's price is 100
and 999 ≠ 7 * 2. -/
theorem C5_counterexample :
    statusCompra (crearCompra stAna reqCantCero).1 = 201 ∧
    detallesDe (crearCompra stAna reqCantCero).2 1 =
      [{ compra_id := 1, producto_id := 1, cantidad := 0
       , precio_unitario := 100, subtotal := 0 }] ∧
    ¬ (1 ≤ (0 : Int)) ∧
    (actualizarProductosDeCompra stConCompra 1 (some reemplazoLibre)).1
      = .ok 999 ∧
    detallesDe (actualizarProductosDeCompra stConCompra 1
        (some reemplazoLibre)).2 1 =
      [{ compra_id := 1, producto_id := 1, cantidad := 2
       , precio_unitario := 7, subtotal := 999 }] ∧
    precioDe stConCompra.productos 1 = 100 ∧
    ((7 : Int) ≠ 100) ∧ ((999 : Int) ≠ 7 * 2) := by decide

/-- C5 (amended): every line item persisted by order creation carries the
requested quantity (which the code does not constrain to be at least 1),
a unit price equal to the product's price read at order time, and a
subtotal equal to unit price times quantity; later product updates leave
all stored line items unchanged, so the snapshot survives price edits.
Line items persisted by line-item replacement are the caller-supplied
rows stored verbatim, with no relation between unit price, product price,
quantity and subtotal enforced. -/
theorem C5_amended_detalle_snapshot :
    (∀ (s : State) (r : CompraReq) (items : List ItemReq),
      jsFalsyStr r.comprador_nombre = false →
      (r.metodo_pago = some "efectivo" ∨ r.metodo_pago = some "transferencia") →
      mesaFueraDeRango r.comprador_mesa 1 50 = false →
      (r.metodo_pago = some "transferencia" → r.comprobante.isSome = true) →
      r.productos = some items →
      items ≠ [] →
      validarStock s.productos items = none →
      comprobanteDemasiadoGrande r.comprobante = false →
      (∀ d ∈ s.detalles, d.compra_id ≠ s.nextCompraId) →
      ∀ d ∈ detallesDe (crearCompra s r).2 s.nextCompraId,
        d.precio_unitario = precioDe s.productos d.producto_id ∧
        d.subtotal = d.precio_unitario * d.cantidad ∧
        ∃ it ∈ items, it.producto_id = d.producto_id ∧
          it.cantidad = d.cantidad) ∧
    (∀ (s : State) (id : Nat) (r : ProductoUpdateReq),
      (actualizarProducto s id r).2.detalles = s.detalles) ∧
    (∀ (s : State) (id : Nat) (c : Compra) (prods : List DetalleReq),
      findCompra s.compras id = some c →
      prods ≠ [] →
      (∀ p ∈ prods, (findProducto s.productos p.producto_id).isSome = true) →
      detallesDe (actualizarProductosDeCompra s id (some prods)).2 id
        = prods.map (detalleOfReq id)) := by
  refine ⟨?_, ?_, ?_⟩
  · intro s r items h1 h2 h3 h4 h5 h6 h7 h8 hfresh
    rw [crearCompra_detalles s r items h1 h2 h3 h4 h5 h6 h7 h8 hfresh]
    intro d hd
    obtain ⟨it, hit, rfl⟩ := List.mem_map.mp hd
    exact ⟨rfl, rfl, it, hit, rfl, rfl⟩
  · intro s id r
    unfold actualizarProducto
    cases findProducto s.productos id <;> rfl
  · intro s id c prods hc hne hall
    rw [actualizarProductos_ok s id c prods hc hne hall]
    unfold detallesDe
    exact detalles_reemplazo s.detalles id prods

/-- Witness for C5 (amended): Ana's creation persists the detalle row with
the price-100 snapshot and subtotal 200; a product update touching the
price leaves the detalle table unchanged; the 500-subtotal replacement
stores its row verbatim. -/
theorem C5_witness :
    ((∀ d ∈ stAna.detalles, d.compra_id ≠ stAna.nextCompraId) ∧
     (∀ d ∈ detallesDe (crearCompra stAna reqAna).2 stAna.nextCompraId,
       d.precio_unitario = precioDe stAna.productos d.producto_id ∧
       d.subtotal = d.precio_unitario * d.cantidad ∧
       ∃ it ∈ [({ producto_id := 1, cantidad := 2 } : ItemReq)],
         it.producto_id = d.producto_id ∧ it.cantidad = d.cantidad)) ∧
    (actualizarProducto stConCompra 1
        { nombre := none, categoria := none, subcategoria := none
        , precio := some 999, stock := none, descripcion := none
        , imagen := none, activo := none }).2.detalles
      = stConCompra.detalles ∧
    detallesDe (actualizarProductosDeCompra stConCompra 1
        (some reemplazo500)).2 1
      = reemplazo500.map (detalleOfReq 1) :=
  ⟨⟨by decide,
    C5_amended_detalle_snapshot.1 stAna reqAna
      [({ producto_id := 1, cantidad := 2 } : ItemReq)]
      (by decide) (Or.inl (by decide)) (by decide) (by decide) (by decide)
      (by decide) (by decide) (by decide) (by decide)⟩,
   C5_amended_detalle_snapshot.2.1 stConCompra 1
     { nombre := none, categoria := none, subcategoria := none
     , precio := some 999, stock := none, descripcion := none
     , imagen := none, activo := none },
   C5_amended_detalle_snapshot.2.2 stConCompra 1 compraAna reemplazo500
     (by decide) (by decide) (by decide)⟩

/-- C6: for every order-creation request whose payment method is
"transferencia" and which carries no receipt file, POST /api/compras fails
with the missing-receipt error and HTTP 400 regardless of the remaining
fields, and the state is unchanged (the check precedes BEGIN, so nothing
is persisted). -/
theorem C6_transferencia_sin_comprobante (s : State) (r : CompraReq)
    (h1 : jsFalsyStr r.comprador_nombre = false)
    (h3 : mesaFueraDeRango r.comprador_mesa 1 50 = false)
    (hm : r.metodo_pago = some "transferencia")
    (hf : r.comprobante = none) :
    crearCompra s r = (.error .missingReceipt, s) ∧
      statusCompra (crearCompra s r).1 = 400 := by
  have h := crearCompra_error_missingReceipt s r h1 h3 hm hf
  exact ⟨h, by rw [h]; rfl⟩

/-- Witness for C6: Ana's otherwise-valid transfer order without a receipt
is rejected with missing-receipt and status 400. -/
theorem C6_witness :
    (jsFalsyStr reqTransferSinComprobante.comprador_nombre = false ∧
     reqTransferSinComprobante.metodo_pago = some "transferencia" ∧
     reqTransferSinComprobante.comprobante = none) ∧
    (crearCompra stAna reqTransferSinComprobante
        = (.error .missingReceipt, stAna) ∧
      statusCompra (crearCompra stAna reqTransferSinComprobante).1 = 400) :=
  ⟨by decide,
   C6_transferencia_sin_comprobante stAna reqTransferSinComprobante
     (by decide) (by decide) (by decide) (by decide)⟩

/-- Counterexample to C7 as stated: table number 0 is outside the valid
range, yet it bypasses the JS-truthiness guard `mesa && (mesa < 1 || ...)`
on both endpoints: the otherwise-valid POST with mesa 0 succeeds (201) and
persists mesa 0, and the buyer-info PUT with mesa 0 succeeds and mutates
the stored order to mesa 0. -/
theorem C7_counterexample :
    reqMesaCero.comprador_mesa = some 0 ∧
    ((0 : Int) < 1) ∧
    statusCompra (crearCompra stAna reqMesaCero).1 = 201 ∧
    ((crearCompra stAna reqMesaCero).2.compras.map fun c => c.comprador_mesa)
      = [some 0] ∧
    infoMesaCero.comprador_mesa = some 0 ∧
    (actualizarCompra stConCompra 1 infoMesaCero).1
      = .ok { compraAna with comprador_mesa := some 0 } ∧
    ((actualizarCompra stConCompra 1 infoMesaCero).2.compras.map
        fun c => c.comprador_mesa) = [some 0] ∧
    (actualizarCompra stConCompra 1 infoMesaCero).2 ≠ stConCompra := by decide

/-- C7 (amended): every supplied non-zero table number outside the
endpoint's valid range is rejected with the invalid-range error and HTTP
400 with no mutation — range 1-50 on order creation (given the required
fields, which are checked first) and range 1-32 on the buyer-info edit
(checked before anything else).  The value 0, although out of range,
slips through the JS-truthiness guard on both endpoints: see the
counterexample. -/
theorem C7_amended_mesa_rango :
    (∀ (s : State) (r : CompraReq) (v : Int),
      jsFalsyStr r.comprador_nombre = false →
      jsFalsyStr r.metodo_pago = false →
      r.comprador_mesa = some v → v ≠ 0 → (v < 1 ∨ 50 < v) →
      crearCompra s r = (.error .mesaRange, s) ∧
        statusCompra (crearCompra s r).1 = 400) ∧
    (∀ (s : State) (id : Nat) (r : InfoReq) (v : Int),
      r.comprador_mesa = some v → v ≠ 0 → (v < 1 ∨ 32 < v) →
      actualizarCompra s id r = (.error .mesaRange, s) ∧
        InfoError.status .mesaRange = 400) := by
  constructor
  · intro s r v h1 h1' hv hne hrange
    have hm : mesaFueraDeRango r.comprador_mesa 1 50 = true := by
      rw [hv]
      rcases hrange with h | h <;> simp [mesaFueraDeRango, hne, h]
    have h := crearCompra_error_mesaRange s r h1 h1' hm
    exact ⟨h, by rw [h]; rfl⟩
  · intro s id r v hv hne hrange
    have hm : mesaFueraDeRango r.comprador_mesa 1 32 = true := by
      rw [hv]
      rcases hrange with h | h <;> simp [mesaFueraDeRango, hne, h]
    constructor
    · unfold actualizarCompra
      rw [hm]
      simp
    · rfl

/-- Witness for C7 (amended): table 51 on creation and table 33 on the
buyer-info edit are both rejected with the invalid-range error and no
mutation. -/
theorem C7_witness :
    (reqMesa51.comprador_mesa = some 51 ∧ ((51 : Int) ≠ 0) ∧
      ((50 : Int) < 51) ∧
      jsFalsyStr reqMesa51.comprador_nombre = false ∧
      jsFalsyStr reqMesa51.metodo_pago = false) ∧
    (crearCompra stAna reqMesa51 = (.error .mesaRange, stAna) ∧
      statusCompra (crearCompra stAna reqMesa51).1 = 400) ∧
    (infoMesa33.comprador_mesa = some 33 ∧ ((33 : Int) ≠ 0) ∧
      ((32 : Int) < 33)) ∧
    (actualizarCompra stConCompra 1 infoMesa33
        = (.error .mesaRange, stConCompra) ∧
      InfoError.status .mesaRange = 400) :=
  ⟨by decide,
   C7_amended_mesa_rango.1 stAna reqMesa51 51 (by decide) (by decide)
     (by decide) (by decide) (Or.inr (by decide)),
   by decide,
   C7_amended_mesa_rango.2 stConCompra 1 infoMesa33 33 (by decide)
     (by decide) (Or.inr (by decide))⟩

/-- C8: PATCH /api/compras/:id/estado updates exactly the boolean status
flags supplied in the body, leaves absent flags and every other order
field unchanged, fails with HTTP 400 when no recognised flag is supplied,
and is last-write-wins: setting the paid flag (abonado) twice leaves the
order with the second value. -/
theorem C8_estado_actualizacion (s : State) (id : Nat) (c : Compra)
    (r : EstadoReq) (b1 b2 : Bool) :
    (actualizarEstado s id estadoVacio = (.error .noFields, s) ∧
      EstadoError.status .noFields = 400) ∧
    (findCompra s.compras id = some c →
      ¬(r.abonado = none ∧ r.listo = none ∧ r.entregado = none) →
      actualizarEstado s id r =
        (.ok (aplicarEstado r c),
         { s with compras := s.compras.map fun x =>
             if x.id == id then aplicarEstado r x else x }) ∧
      (aplicarEstado r c).abonado = r.abonado.getD c.abonado ∧
      (aplicarEstado r c).listo = r.listo.getD c.listo ∧
      (aplicarEstado r c).entregado = r.entregado.getD c.entregado ∧
      (aplicarEstado r c).id = c.id ∧
      (aplicarEstado r c).comprador_nombre = c.comprador_nombre ∧
      (aplicarEstado r c).comprador_mesa = c.comprador_mesa ∧
      (aplicarEstado r c).metodo_pago = c.metodo_pago ∧
      (aplicarEstado r c).total = c.total ∧
      (actualizarEstado s id r).2.productos = s.productos ∧
      (actualizarEstado s id r).2.detalles = s.detalles ∧
      findCompra (actualizarEstado s id r).2.compras id
        = some (aplicarEstado r c) ∧
      (∀ x ∈ s.compras, x.id ≠ id →
        x ∈ (actualizarEstado s id r).2.compras)) ∧
    (findCompra s.compras id = some c →
      findCompra
        ((actualizarEstado
            ((actualizarEstado s id (soloAbonado b1)).2)
            id (soloAbonado b2)).2).compras id
        = some { c with abonado := b2 }) := by
  refine ⟨⟨rfl, rfl⟩, ?_, ?_⟩
  · intro hc hne
    have hcond : (r.abonado.isNone && r.listo.isNone && r.entregado.isNone)
        = false := by
      rcases r with ⟨a, l, e⟩
      cases a <;> cases l <;> cases e <;> simp_all
    have hupd : actualizarEstado s id r =
        (.ok (aplicarEstado r c),
         { s with compras := s.compras.map fun x =>
             if x.id == id then aplicarEstado r x else x }) := by
      unfold actualizarEstado
      rw [hcond]
      simp only [Bool.false_eq_true, if_false, hc]
    refine ⟨hupd, rfl, rfl, rfl, rfl, rfl, rfl, rfl, rfl, ?_, ?_, ?_, ?_⟩
    · rw [hupd]
    · rw [hupd]
    · rw [hupd]
      exact findCompra_update s.compras id c _ (fun x => rfl) hc
    · intro x hx hxid
      rw [hupd]
      exact mem_map_update_of_ne s.compras id _ x hx hxid
  · intro hc
    have hcond1 : ((soloAbonado b1).abonado.isNone &&
        (soloAbonado b1).listo.isNone && (soloAbonado b1).entregado.isNone)
        = false := rfl
    have hcond2 : ((soloAbonado b2).abonado.isNone &&
        (soloAbonado b2).listo.isNone && (soloAbonado b2).entregado.isNone)
        = false := rfl
    have h1 : actualizarEstado s id (soloAbonado b1) =
        (.ok (aplicarEstado (soloAbonado b1) c),
         { s with compras := s.compras.map fun x =>
             if x.id == id then aplicarEstado (soloAbonado b1) x else x }) := by
      unfold actualizarEstado
      rw [hcond1]
      simp only [Bool.false_eq_true, if_false, hc]
    rw [h1]
    have hfind1 : findCompra
        (s.compras.map fun x =>
          if x.id == id then aplicarEstado (soloAbonado b1) x else x) id
        = some (aplicarEstado (soloAbonado b1) c) :=
      findCompra_update s.compras id c _ (fun x => rfl) hc
    have h2 : actualizarEstado
        { s with compras := s.compras.map fun x =>
            if x.id == id then aplicarEstado (soloAbonado b1) x else x } id
        (soloAbonado b2) =
        (.ok (aplicarEstado (soloAbonado b2)
            (aplicarEstado (soloAbonado b1) c)),
         { s with compras := (s.compras.map fun x =>
             if x.id == id then aplicarEstado (soloAbonado b1) x
             else x).map fun x =>
               if x.id == id then aplicarEstado (soloAbonado b2) x else x }) := by
      unfold actualizarEstado
      rw [hcond2]
      simp only [Bool.false_eq_true, if_false, hfind1]
    rw [h2]
    exact findCompra_update
      (s.compras.map fun x =>
        if x.id == id then aplicarEstado (soloAbonado b1) x else x)
      id (aplicarEstado (soloAbonado b1) c) (aplicarEstado (soloAbonado b2))
      (fun x => rfl) hfind1

/-- Witness for C8: on the stored order, PATCH with no flag is a 400;
PATCH with abonado only flips exactly that flag; and setting abonado to
true and then to false leaves the order with abonado false. -/
theorem C8_witness :
    (findCompra stConCompra.compras 1 = some compraAna ∧
     ¬((soloAbonado true).abonado = none ∧ (soloAbonado true).listo = none ∧
        (soloAbonado true).entregado = none)) ∧
    (actualizarEstado stConCompra 1 estadoVacio
        = (.error .noFields, stConCompra) ∧
      EstadoError.status .noFields = 400) ∧
    (actualizarEstado stConCompra 1 (soloAbonado true) =
      (.ok (aplicarEstado (soloAbonado true) compraAna),
       { stConCompra with compras := stConCompra.compras.map fun x =>
           if x.id == 1 then aplicarEstado (soloAbonado true) x else x })) ∧
    findCompra
      ((actualizarEstado
          ((actualizarEstado stConCompra 1 (soloAbonado true)).2)
          1 (soloAbonado false)).2).compras 1
      = some { compraAna with abonado := false } :=
  ⟨by decide,
   (C8_estado_actualizacion stConCompra 1 compraAna
     (soloAbonado true) true false).1,
   ((C8_estado_actualizacion stConCompra 1 compraAna
     (soloAbonado true) true false).2.1 (by decide) (by decide)).1,
   (C8_estado_actualizacion stConCompra 1 compraAna
     estadoVacio true false).2.2 (by decide)⟩

/-- C9: DELETE /api/compras/:id on an existing order removes the order row
and, by cascade, exactly its detalle rows; every other order survives,
the product table (and so every stock) is untouched, and in particular
the stock decremented at creation is not restored. -/
theorem C9_eliminar_compra (s : State) (id : Nat) (c : Compra)
    (hc : findCompra s.compras id = some c) :
    ∃ s', eliminarCompra s id = (.ok (), s') ∧
      s'.productos = s.productos ∧
      (∀ d ∈ s'.detalles, d.compra_id ≠ id) ∧
      (∀ d ∈ s.detalles, d.compra_id ≠ id → d ∈ s'.detalles) ∧
      (∀ x, x ∈ s'.compras ↔ x ∈ s.compras ∧ x.id ≠ id) := by
  unfold eliminarCompra
  rw [hc]
  refine ⟨_, rfl, rfl, ?_, ?_, ?_⟩
  · intro d hd
    rw [List.mem_filter] at hd
    simpa using hd.2
  · intro d hd hne
    rw [List.mem_filter]
    refine ⟨hd, ?_⟩
    simpa using hne
  · intro x
    rw [List.mem_filter]
    simp

/-- Witness for C9: deleting the stored order removes it and its detalle
row while the product table keeps stock 3 (not restored to 5). -/
theorem C9_witness :
    findCompra stConCompra.compras 1 = some compraAna ∧
    (∃ s', eliminarCompra stConCompra 1 = (.ok (), s') ∧
      s'.productos = stConCompra.productos ∧
      (∀ d ∈ s'.detalles, d.compra_id ≠ 1) ∧
      (∀ d ∈ stConCompra.detalles, d.compra_id ≠ 1 → d ∈ s'.detalles) ∧
      (∀ x, x ∈ s'.compras ↔ x ∈ stConCompra.compras ∧ x.id ≠ 1)) ∧
    stockDe (eliminarCompra stConCompra 1).2.productos 1 = some 3 :=
  ⟨by decide,
   C9_eliminar_compra stConCompra 1 compraAna (by decide),
   by decide⟩

/-- C10: the public listing GET /api/productos only ever returns rows with
activo = true; after the soft delete DELETE /api/productos/:id the product
no longer appears in any public listing, yet GET /api/productos/:id still
returns it, with activo set to false. -/
theorem C10_listado_solo_activos (s : State) (cat sub : Option String)
    (id : Nat) (p : Producto) :
    (∀ q ∈ listarProductos s cat sub, q.activo = true) ∧
    (findProducto s.productos id = some p →
      ∃ s', eliminarProducto s id = (.ok (), s') ∧
        (∀ q ∈ listarProductos s' cat sub, q.id ≠ id) ∧
        obtenerProducto s' id = some { p with activo := false }) := by
  constructor
  · intro q hq
    rw [listarProductos, List.mem_filter] at hq
    have h := hq.2
    rw [Bool.and_eq_true, Bool.and_eq_true] at h
    exact h.1.1
  · intro hp
    unfold eliminarProducto
    rw [hp]
    refine ⟨_, rfl, ?_, ?_⟩
    · intro q hq hqid
      rw [listarProductos, List.mem_filter] at hq
      obtain ⟨hmem, hact⟩ := hq
      obtain ⟨x, hx, hxq⟩ := List.mem_map.mp hmem
      by_cases hxid : x.id = id
      · rw [← hxq] at hact
        simp [hxid] at hact
      · rw [← hxq] at hqid
        simp [hxid] at hqid
    · unfold obtenerProducto
      rw [findProducto_map s.productos _ (fun x => by split <;> rfl) id, hp]
      have hp' : s.productos.find? (fun x => x.id == id) = some p := hp
      have hid := List.find?_some hp'
      simp only [Option.map_some']
      rw [if_pos hid]

/-- Witness for C10: before deletion product 1 is listed; after the soft
delete it is gone from the listing but still fetchable by id with activo
false. -/
theorem C10_witness :
    findProducto stAna.productos 1 = some prodAna ∧
    (∀ q ∈ listarProductos stAna none none, q.activo = true) ∧
    (∃ s', eliminarProducto stAna 1 = (.ok (), s') ∧
      (∀ q ∈ listarProductos s' none none, q.id ≠ 1) ∧
      obtenerProducto s' 1 = some { prodAna with activo := false }) ∧
    listarProductos stAna none none = [prodAna] ∧
    listarProductos (eliminarProducto stAna 1).2 none none = [] :=
  ⟨by decide,
   (C10_listado_solo_activos stAna none none 1 prodAna).1,
   (C10_listado_solo_activos stAna none none 1 prodAna).2 (by decide),
   by decide⟩

end Sanpaholmes
